import Mathlib

/-!
Verification development for the Exit Relay Core of ClandestiNet/ClandestiNode.

Shallow embedding of:
* `src/node/src/proxy_client/proxy_client.rs` — the Exit Actor (`ProxyClient`):
  its three data-plane handlers are modelled as pure functions from actor state
  and message to a new state plus lists of emitted messages (pool, hopper,
  accountant) and log entries.  The actix mailbox plumbing is elided; the
  handlers are modelled in the post-`BindMessage` configuration, where the
  hopper/accountant recipients and the stream-handler pool are bound, so a
  `try_send` to a peer actor is recorded as an element of the corresponding
  effect list.  A handler that panics (an `expect` firing) is modelled by
  returning `none`.
* `src/node/src/hopper/live_cores_package.rs` — `LiveCoresPackage::to_expired`.
* `src/dns_utility/src/dns_inspector/resolv_conf_dns_modifier.rs` —
  `inspect_contents`, `active_nameservers`, `nameserver_line_to_ip_str`,
  including a direct functional rendering of the two regular expressions the
  source uses and of Rust's `IpAddr::from_str` grammar.

Helpers that live in `sub_lib` (not part of this repository snapshot) are
modelled from the specification and are marked `Modelled from the spec:` in
their doc comments.
-/

/-! ## Basic data model (spec §3) -/

/-- Opaque byte sequence; the empty key is the end-of-route sentinel. -/
abbrev PublicKey := List Nat

/-- Opaque ciphertext/padding blob. -/
abbrev CryptData := List Nat

/-- Opaque payer identifier (string-shaped). -/
abbrev Wallet := String

/-- Opaque per-session stream identifier, used only as a map key. -/
abbrev StreamKey := Nat

/-- Socket address of an origin server; opaque here, used in log lines. -/
abbrev SocketAddr := String

/-- Component tag carried by a hop directive. -/
inductive Component where
  | Neighborhood
  | Hopper
  | ProxyServer
  | ProxyClient
deriving DecidableEq, Repr

/-- Cleartext form of one hop directive. -/
structure LiveHop where
  public_key : PublicKey
  consuming_wallet : Option Wallet
  component : Component
deriving DecidableEq, Repr

/-- Ordered sequence of encrypted hop directives. -/
structure Route where
  hops : List CryptData
deriving DecidableEq, Repr

/-- `sub_lib::route::RouteError` variants (spec §4.2). -/
inductive RouteError where
  | EmptyRoute
  | HopDecodeProblem
  | HopDeserializationProblem
  | IllegalRoute
deriving DecidableEq, Repr

structure SequencedPacket where
  data : List Nat
  sequence_number : Nat
  last_data : Bool
deriving DecidableEq, Repr

inductive ProxyProtocol where
  | HTTP
  | TLS
deriving DecidableEq, Repr

structure ClientRequestPayload where
  stream_key : StreamKey
  sequenced_packet : SequencedPacket
  target_hostname : Option String
  target_port : Nat
  protocol : ProxyProtocol
  originator_public_key : PublicKey
deriving DecidableEq, Repr

structure ClientResponsePayload where
  stream_key : StreamKey
  sequenced_packet : SequencedPacket
deriving DecidableEq, Repr

structure DnsResolveFailure where
  stream_key : StreamKey
deriving DecidableEq, Repr

/-- Tagged sum of payload kinds (spec §3); only the first three are consumed
by this core, the remaining variants are collapsed into `Gossip`. -/
inductive MessageType where
  | ClientRequest (p : ClientRequestPayload)
  | ClientResponse (p : ClientResponsePayload)
  | DnsResolveFailed (f : DnsResolveFailure)
  | Gossip
deriving DecidableEq, Repr

/-- Modelled from the spec: the Crypto Primitive interface of §4.1
(`sub_lib::cryptde`, not part of this repository snapshot).  `encodex`
serializes and encrypts a `MessageType` to a recipient key and must fail on
the empty key; `decodexMsg` is `decodex::<MessageType>` under the local key;
`decodeHop` decrypts-and-deserializes one hop blob with the local key.
The local key pair is `public_key`. -/
structure CryptDE where
  public_key : PublicKey
  encodex : PublicKey → MessageType → Except String CryptData
  decodexMsg : CryptData → Except String MessageType
  decodeHop : CryptData → Except RouteError LiveHop

/-- Modelled from the spec: `Route::next_hop` (§4.2, `sub_lib::route`, not in
this snapshot) "decrypts (does **not** consume) the top hop using the local
decryption key", failing with `EmptyRoute` on an empty hop list. -/
def Route.next_hop (r : Route) (cryptde : CryptDE) : Except RouteError LiveHop :=
  match r.hops with
  | [] => Except.error RouteError.EmptyRoute
  | top :: _ => cryptde.decodeHop top

/-- Debug rendering of a `RouteError`, standing in for Rust's `format!("{:?}", e)`. -/
def RouteError.debugText : RouteError → String
  | RouteError.EmptyRoute => "EmptyRoute"
  | RouteError.HopDecodeProblem => "HopDecodeProblem"
  | RouteError.HopDeserializationProblem => "HopDeserializationProblem"
  | RouteError.IllegalRoute => "IllegalRoute"

/-- IP address as parsed by the dns inspector and carried by expired packages. -/
inductive IpAddr where
  | v4 (a b c d : Nat)
  | v6 (g0 g1 g2 g3 g4 g5 g6 g7 : Nat)
deriving DecidableEq, Repr

/-- `sub_lib::hopper::ExpiredCoresPackage<T>` (spec §3). -/
structure ExpiredCoresPackage (T : Type) where
  immediate_neighbor_ip : IpAddr
  consuming_wallet : Option Wallet
  remaining_route : Route
  payload : T
  payload_len : Nat
deriving DecidableEq, Repr

/-- `sub_lib::hopper::IncipientCoresPackage`: outgoing package whose payload is
already encrypted to the destination key. -/
structure IncipientCoresPackage where
  route : Route
  payload : CryptData
deriving DecidableEq, Repr

/-- Modelled from the spec: `IncipientCoresPackage::new` (`sub_lib::hopper`,
not in this snapshot).  "Construction encrypts `payload` to the declared
destination key" (§3); the encryption error is propagated as the message
`Could not encrypt payload: <e>` (observable in the repository's own test
`error_creating_incipient_cores_package_is_logged_and_dropped`). -/
def IncipientCoresPackage.new (cryptde : CryptDE) (route : Route)
    (payload : MessageType) (dest : PublicKey) : Except String IncipientCoresPackage :=
  match cryptde.encodex dest payload with
  | Except.error e => Except.error ("Could not encrypt payload: " ++ e)
  | Except.ok encrypted => Except.ok { route := route, payload := encrypted }

/-- `hopper::live_cores_package::LiveCoresPackage`. -/
structure LiveCoresPackage where
  route : Route
  payload : CryptData
deriving DecidableEq, Repr

/-- `LiveCoresPackage::to_expired` (src/node/src/hopper/live_cores_package.rs):
peek the top hop with `next_hop` to recover the consuming wallet, then
`decodex` the payload under the local key; the expired package keeps the
route unchanged as `remaining_route`. -/
def LiveCoresPackage.to_expired (self : LiveCoresPackage)
    (immediate_neighbor_ip : IpAddr) (cryptde : CryptDE) :
    Except String (ExpiredCoresPackage MessageType) :=
  match self.route.next_hop cryptde with
  | Except.error e => Except.error e.debugText
  | Except.ok top_hop =>
    (cryptde.decodexMsg self.payload).map (fun decoded_payload =>
      { immediate_neighbor_ip := immediate_neighbor_ip
        consuming_wallet := top_hop.consuming_wallet
        remaining_route := self.route
        payload := decoded_payload
        payload_len := self.payload.length })

/-! ## Exit Actor state and messages (proxy_client.rs) -/

/-- `proxy_client::StreamContext`. -/
structure StreamContext where
  return_route : Route
  payload_destination_key : PublicKey
  consuming_wallet : Option Wallet
deriving DecidableEq, Repr

/-- The Exit Actor's stream-context table, modelled as an association list
with the lookup/insert/remove semantics of `std::collections::HashMap`. -/
abbrev ContextMap := List (StreamKey × StreamContext)

def mapGet (m : ContextMap) (k : StreamKey) : Option StreamContext :=
  (m.find? (fun p => p.1 == k)).map (fun p => p.2)

def mapInsert (m : ContextMap) (k : StreamKey) (v : StreamContext) : ContextMap :=
  (k, v) :: m.filter (fun p => !(p.1 == k))

def mapRemove (m : ContextMap) (k : StreamKey) : ContextMap :=
  m.filter (fun p => !(p.1 == k))

/-- `sub_lib::proxy_client::InboundServerData`. -/
structure InboundServerData where
  stream_key : StreamKey
  last_data : Bool
  sequence_number : Nat
  source : SocketAddr
  data : List Nat
deriving DecidableEq, Repr

/-- `sub_lib::accountant::ReportExitServiceProvidedMessage`. -/
structure ReportExitServiceProvidedMessage where
  consuming_wallet : Wallet
  payload_size : Nat
  service_rate : Nat
  byte_rate : Nat
deriving DecidableEq, Repr

/-- The log lines the three handlers can produce, with the dynamic parts of
each `format!` call kept as constructor arguments. -/
inductive LogEntry where
  | debugExpiredHandled
  | errorRefusingExit (payload_len : Nat)
  | errorUnsolicited (len : Nat) (source : SocketAddr) (seq : Nat)
  | errorCouldNotCreatePackage (len : Nat) (source : SocketAddr) (seq : Nat) (err : String)
  | debugRelayedFree (len : Nat)
  | errorDnsNonexistentStream (key : StreamKey)
deriving DecidableEq, Repr

/-- Messages and log lines emitted during one handler run.  `pool_messages`
are `process_package` calls on the Stream Handler Pool, `hopper_messages`
and `accountant_messages` are `try_send`s to the bound recipients. -/
structure Effects where
  pool_messages : List (ClientRequestPayload × Option Wallet)
  hopper_messages : List IncipientCoresPackage
  accountant_messages : List ReportExitServiceProvidedMessage
  logs : List LogEntry

/-- The mutable part of `ProxyClient` relevant to the data-plane handlers,
in the bound configuration (`to_hopper`, `to_accountant` and `pool` are
`Some`; sends to them appear in `Effects`). -/
structure ProxyClientState where
  cryptde : CryptDE
  stream_contexts : ContextMap
  exit_service_rate : Nat
  exit_byte_rate : Nat

/-- `Handler<ExpiredCoresPackage<ClientRequestPayload>> for ProxyClient`
(proxy_client.rs lines 85–115). -/
def handleExpiredCoresPackage (s : ProxyClientState)
    (msg : ExpiredCoresPackage ClientRequestPayload) : ProxyClientState × Effects :=
  let payload := msg.payload
  let consuming_wallet := msg.consuming_wallet
  if consuming_wallet.isSome || payload.originator_public_key == s.cryptde.public_key then
    let latest_stream_context : StreamContext :=
      { return_route := msg.remaining_route
        payload_destination_key := payload.originator_public_key
        consuming_wallet := consuming_wallet }
    ({ s with stream_contexts :=
        mapInsert s.stream_contexts payload.stream_key latest_stream_context },
     { pool_messages := [(payload, consuming_wallet)]
       hopper_messages := []
       accountant_messages := []
       logs := [LogEntry.debugExpiredHandled] })
  else
    (s, { pool_messages := []
          hopper_messages := []
          accountant_messages := []
          logs := [LogEntry.errorRefusingExit payload.sequenced_packet.data.length] })

/-- `ProxyClient::send_response_to_hopper` (lines 205–239): build the
`ClientResponse` payload, wrap it as an `IncipientCoresPackage` over the
stored return route; `some icp` models `Ok(())` with `icp` sent to the
hopper, `none` models the logged-and-dropped `Err(())`. -/
def sendResponseToHopper (s : ProxyClientState) (msg : InboundServerData)
    (stream_context : StreamContext) : Option IncipientCoresPackage × List LogEntry :=
  match IncipientCoresPackage.new s.cryptde stream_context.return_route
      (MessageType.ClientResponse
        { stream_key := msg.stream_key
          sequenced_packet :=
            { data := msg.data
              sequence_number := msg.sequence_number
              last_data := msg.last_data } })
      stream_context.payload_destination_key with
  | Except.ok icp => (some icp, [])
  | Except.error err =>
    (none,
     [LogEntry.errorCouldNotCreatePackage msg.data.length msg.source msg.sequence_number err])

/-- `ProxyClient::report_response_exit_to_accountant` (lines 241–264). -/
def reportResponseExitToAccountant (s : ProxyClientState)
    (stream_context : StreamContext) (msg_data_len : Nat) :
    List ReportExitServiceProvidedMessage × List LogEntry :=
  match stream_context.consuming_wallet with
  | some consuming_wallet =>
    ([{ consuming_wallet := consuming_wallet
        payload_size := msg_data_len
        service_rate := s.exit_service_rate
        byte_rate := s.exit_byte_rate }], [])
  | none => ([], [LogEntry.debugRelayedFree msg_data_len])

/-- `Handler<InboundServerData> for ProxyClient` (lines 117–144). -/
def handleInboundServerData (s : ProxyClientState) (msg : InboundServerData) :
    ProxyClientState × Effects :=
  let msg_data_len := msg.data.length
  match mapGet s.stream_contexts msg.stream_key with
  | none =>
    (s, { pool_messages := []
          hopper_messages := []
          accountant_messages := []
          logs := [LogEntry.errorUnsolicited msg_data_len msg.source msg.sequence_number] })
  | some stream_context =>
    match sendResponseToHopper s msg stream_context with
    | (none, errLogs) =>
      (s, { pool_messages := []
            hopper_messages := []
            accountant_messages := []
            logs := errLogs })
    | (some icp, _) =>
      let (acct, acctLogs) := reportResponseExitToAccountant s stream_context msg_data_len
      let s2 :=
        if msg.last_data then
          { s with stream_contexts := mapRemove s.stream_contexts msg.stream_key }
        else s
      (s2, { pool_messages := []
             hopper_messages := [icp]
             accountant_messages := acct
             logs := acctLogs })

/-- `Handler<DnsResolveFailure> for ProxyClient` (lines 146–172).  The
`.expect("Failed to create IncipientCoresPackage")` on a failed construction
is a panic, modelled as `none`. -/
def handleDnsResolveFailure (s : ProxyClientState) (msg : DnsResolveFailure) :
    Option (ProxyClientState × Effects) :=
  match mapGet s.stream_contexts msg.stream_key with
  | some stream_context =>
    match IncipientCoresPackage.new s.cryptde stream_context.return_route
        (MessageType.DnsResolveFailed msg) stream_context.payload_destination_key with
    | Except.ok package =>
      some (s, { pool_messages := []
                 hopper_messages := [package]
                 accountant_messages := []
                 logs := [] })
    | Except.error _ => none
  | none =>
    some (s, { pool_messages := []
               hopper_messages := []
               accountant_messages := []
               logs := [LogEntry.errorDnsNonexistentStream msg.stream_key] })

/-! ## resolv.conf inspector (resolv_conf_dns_modifier.rs)

The source drives two `regex::Regex` patterns over the file contents.  Both
patterns are deterministic on every input (each quantified class is disjoint
from the literal that follows it, so greedy maximal munch never backtracks),
which lets them be rendered as direct scanning functions.  -/

inductive DnsInspectionError where
  | InvalidConfigFile (msg : String)
  | BadEntryFormat (line : String)
  | NotConnected
deriving DecidableEq, Repr

/-- Rust regex `\s` (Unicode `White_Space`) as a character test. -/
def rsWhitespace (c : Char) : Bool :=
  let n := c.toNat
  (0x9 ≤ n && n ≤ 0xD) || n = 0x20 || n = 0x85 || n = 0xA0 || n = 0x1680 ||
  (0x2000 ≤ n && n ≤ 0x200A) || n = 0x2028 || n = 0x2029 || n = 0x202F ||
  n = 0x205F || n = 0x3000

/-- Index reached after skipping, from index `i`, the maximal run of
characters satisfying `p`. -/
def skipFrom (p : Char → Bool) (cs : List Char) (i : Nat) : Nat :=
  i + ((cs.drop i).takeWhile p).length

def nameserverChars : List Char :=
  ['n', 'a', 'm', 'e', 's', 'e', 'r', 'v', 'e', 'r']

/-- Does the literal `nameserver` occur at index `q`? -/
def hasNameserverAt (cs : List Char) (q : Nat) : Bool :=
  (cs.drop q).take 10 == nameserverChars

/-- One match attempt of `(^|\n)\s*(nameserver\s+[^\s]*)` at start position
`p` (`^` is start-of-haystack; the pattern is not multiline).  Returns the
bounds `(capStart, capEnd)` of capture group 2 on success.  The attempt is
deterministic: `\s*`/`\s+` are disjoint from `n` and from `[^\s]`, so the
greedy runs are exact. -/
def tryCaptureAt (cs : List Char) (p : Nat) : Option (Nat × Nat) :=
  if p == 0 || cs.get? p == some '\n' then
    let start := if p == 0 then 0 else p + 1
    let q := skipFrom rsWhitespace cs start
    if hasNameserverAt cs q then
      let r := skipFrom rsWhitespace cs (q + 10)
      if q + 10 < r then
        some (q, skipFrom (fun c => !(rsWhitespace c)) cs r)
      else none
    else none
  else none

/-- `captures_iter` for the pattern above: successive leftmost matches,
resuming after the end of each match.  `fuel` bounds the recursion; every
step advances the scan position, so `cs.length + 1` steps suffice. -/
def nsLoop (cs : List Char) : Nat → Nat → List (List Char × Nat)
  | _, 0 => []
  | p, fuel + 1 =>
    if p > cs.length then []
    else
      match tryCaptureAt cs p with
      | some (q, e) => ((cs.drop q).take (e - q), q) :: nsLoop cs (max e (p + 1)) fuel
      | none => nsLoop cs (p + 1) fuel

/-- `ResolvConfDnsModifier::active_nameservers` (lines 140–149): every
capture of `(^|\n)\s*(nameserver\s+[^\s]*)` over the contents, with the
capture's start offset. -/
def active_nameservers (contents : String) : List (String × Nat) :=
  (nsLoop contents.data 0 (contents.data.length + 1)).map
    (fun pr => (String.mk pr.1, pr.2))

/-- `ResolvConfDnsModifier::nameserver_line_to_ip_str` (lines 126–138):
capture group 1 of `^\s*nameserver\s+([^\s#]*)` on the line, else
`BadEntryFormat(line)`. -/
def nameserver_line_to_ip_str (line : String) :
    Except DnsInspectionError String :=
  let cs := line.data
  let q := skipFrom rsWhitespace cs 0
  if hasNameserverAt cs q then
    let r := skipFrom rsWhitespace cs (q + 10)
    if q + 10 < r then
      let e := skipFrom (fun c => !(rsWhitespace c) && !(c == '#')) cs r
      Except.ok (String.mk ((cs.drop r).take (e - r)))
    else Except.error (DnsInspectionError.BadEntryFormat line)
  else Except.error (DnsInspectionError.BadEntryFormat line)

/-! ### Rust `IpAddr::from_str` -/

def splitOnChar (sep : Char) : List Char → List (List Char)
  | [] => [[]]
  | c :: rest =>
    let r := splitOnChar sep rest
    if c == sep then [] :: r
    else
      match r with
      | [] => [[c]]
      | g :: gs => (c :: g) :: gs

/-- Numeric value of a decimal digit character (code points 48–57). -/
def decDigitVal (c : Char) : Option Nat :=
  let n := c.toNat
  if 48 ≤ n ∧ n ≤ 57 then some (n - 48) else none

/-- Numeric value of a hexadecimal digit character, either case. -/
def hexDigitVal (c : Char) : Option Nat :=
  let n := c.toNat
  if 48 ≤ n ∧ n ≤ 57 then some (n - 48)
  else if 97 ≤ n ∧ n ≤ 102 then some (n - 87)
  else if 65 ≤ n ∧ n ≤ 70 then some (n - 55)
  else none

/-- Value of a digit string under `digitVal`, `none` if any char is not a
digit. -/
def readDigits (digitVal : Char → Option Nat) (radix : Nat)
    (cs : List Char) : Option Nat :=
  cs.foldl
    (fun acc c =>
      match acc, digitVal c with
      | some a, some d => some (a * radix + d)
      | _, _ => none)
    (some 0)

/-- One dotted-quad octet, per Rust `Ipv4Addr::from_str`: decimal digits,
nonempty, no leading zero (unless exactly `0`), value ≤ 255. -/
def parseOctet (g : List Char) : Option Nat :=
  match g with
  | [] => none
  | c :: rest =>
    if c == '0' && rest ≠ [] then none
    else
      match readDigits decDigitVal 10 g with
      | some v => if v ≤ 255 then some v else none
      | none => none

/-- Rust `Ipv4Addr::from_str`: exactly four valid octets separated by `.`,
whole string consumed. -/
def parseIpv4 (cs : List Char) : Option IpAddr :=
  match (splitOnChar '.' cs).mapM parseOctet with
  | some [a, b, c, d] => some (IpAddr.v4 a b c d)
  | _ => none

/-- One IPv6 group: 1–4 hex digits. -/
def parseHextet (g : List Char) : Option Nat :=
  if g = [] || g.length > 4 then none
  else readDigits hexDigitVal 16 g

/-- Expand a `:`-separated group list into 16-bit words; the last group may
be an embedded dotted-quad IPv4 address contributing two words. -/
def parseGroupsV6 : List (List Char) → Option (List Nat)
  | [] => some []
  | [g] =>
    if g.contains '.' then
      match parseIpv4 g with
      | some (IpAddr.v4 a b c d) => some [a * 256 + b, c * 256 + d]
      | _ => none
    else (parseHextet g).map (fun v => [v])
  | g :: rest =>
    match parseHextet g, parseGroupsV6 rest with
    | some v, some vs => some (v :: vs)
    | _, _ => none

/-- Index of the first occurrence of `::` in `cs`, if any. -/
def findDoubleColon : List Char → Option Nat
  | [] => none
  | [_] => none
  | c1 :: c2 :: rest =>
    if c1 == ':' && c2 == ':' then some 0
    else (findDoubleColon (c2 :: rest)).map (· + 1)

def wordsToV6 (ws : List Nat) : Option IpAddr :=
  match ws with
  | [g0, g1, g2, g3, g4, g5, g6, g7] => some (IpAddr.v6 g0 g1 g2 g3 g4 g5 g6 g7)
  | _ => none

/-- Rust `Ipv6Addr::from_str`: eight colon-separated groups, or a single `::`
abbreviating one or more zero groups; the final group may be an embedded
IPv4 address. -/
def parseIpv6 (cs : List Char) : Option IpAddr :=
  match findDoubleColon cs with
  | none =>
    match parseGroupsV6 (splitOnChar ':' cs) with
    | some ws => if ws.length = 8 then wordsToV6 ws else none
    | none => none
  | some i =>
    let left := cs.take i
    let right := cs.drop (i + 2)
    if findDoubleColon right != none then none
    else
      let leftWords :=
        if left = [] then some [] else parseGroupsV6 (splitOnChar ':' left)
      let rightWords :=
        if right = [] then some [] else parseGroupsV6 (splitOnChar ':' right)
      match leftWords, rightWords with
      | some lw, some rw =>
        if lw.length + rw.length ≤ 7 then
          wordsToV6 (lw ++ List.replicate (8 - lw.length - rw.length) 0 ++ rw)
        else none
      | _, _ => none

/-- Rust `IpAddr::from_str`: try IPv4 first, then IPv6. -/
def ipAddrFromStr (s : String) : Option IpAddr :=
  match parseIpv4 s.data with
  | some a => some a
  | none => parseIpv6 s.data

/-! ### `inspect_contents` -/

/-- The triple built for one active nameserver line (the source's
`type Triple = (Option<String>, Option<IpAddr>, Option<DnsInspectionError>)`). -/
def lineTriple (line : String) :
    Option String × Option IpAddr × Option DnsInspectionError :=
  match nameserver_line_to_ip_str line with
  | Except.ok ip_str =>
    match ipAddrFromStr ip_str with
    | some ip_addr => (some ip_str, some ip_addr, none)
    | none => (some ip_str, none, some (DnsInspectionError.BadEntryFormat ip_str))
  | Except.error e => (none, none, some e)

/-- `ResolvConfDnsModifier::inspect_contents` (lines 96–124).  `partition`
is rendered as its two order-preserving filters; the `expect("partition()
isn't working")` on a failure triple with no error — impossible, since every
triple in `failures` carries `some` error — is modelled by the dead
`NotConnected` default. -/
def inspect_contents (contents : String) :
    Except DnsInspectionError (List IpAddr) :=
  let triples := (active_nameservers contents).map (fun pr => lineTriple pr.1)
  let successes := triples.filter (fun t => t.2.2.isNone)
  let failures := triples.filter (fun t => !t.2.2.isNone)
  if successes.isEmpty && failures.isEmpty then
    Except.error DnsInspectionError.NotConnected
  else if successes.isEmpty then
    match failures with
    | (_, _, some e) :: _ => Except.error e
    | _ => Except.error DnsInspectionError.NotConnected
  else
    let ip_vec := successes.filterMap (fun t => t.2.1)
    if ip_vec.isEmpty then Except.error DnsInspectionError.NotConnected
    else Except.ok ip_vec

/-! ## Helper lemmas about the context map and the modelled constructors -/

theorem mapGet_mapInsert_self (m : ContextMap) (k : StreamKey) (v : StreamContext) :
    mapGet (mapInsert m k v) k = some v := by
  simp [mapGet, mapInsert, List.find?]

theorem mapGet_mapRemove_self (m : ContextMap) (k : StreamKey) :
    mapGet (mapRemove m k) k = none := by
  induction m with
  | nil => rfl
  | cons hd tl ih =>
    by_cases h : (hd.1 == k) = true
    · have hdrop : mapRemove (hd :: tl) k = mapRemove tl k := by
        simp [mapRemove, List.filter_cons, h]
      rw [hdrop]; exact ih
    · simp only [Bool.not_eq_true] at h
      simp only [mapRemove, mapGet, List.filter_cons, List.find?, h] at ih ⊢
      exact ih

theorem IncipientCoresPackage.new_route (c : CryptDE) (r : Route) (p : MessageType)
    (d : PublicKey) (icp : IncipientCoresPackage)
    (h : IncipientCoresPackage.new c r p d = Except.ok icp) : icp.route = r := by
  unfold IncipientCoresPackage.new at h
  cases henc : c.encodex d p with
  | error e => rw [henc] at h; exact absurd h (by simp)
  | ok enc => rw [henc] at h; cases h; rfl

theorem handleExpiredCoresPackage_cryptde (s : ProxyClientState)
    (msg : ExpiredCoresPackage ClientRequestPayload) :
    (handleExpiredCoresPackage s msg).1.cryptde = s.cryptde := by
  by_cases h : (msg.consuming_wallet.isSome ||
      msg.payload.originator_public_key == s.cryptde.public_key) = true
  · simp [handleExpiredCoresPackage, h]
  · simp only [Bool.not_eq_true] at h
    simp [handleExpiredCoresPackage, h]

/-! ## Concrete fixtures used by witnesses and counterexamples -/

/-- A concrete crypto identity satisfying the §4.1 contract used in
witnesses: `encodex` fails exactly on the empty recipient key. -/
def cdeA : CryptDE :=
  { public_key := [1, 2]
    encodex := fun k _m => if k = [] then Except.error "EmptyKey" else Except.ok [7]
    decodexMsg := fun _ => Except.ok MessageType.Gossip
    decodeHop := fun _ =>
      Except.ok { public_key := [3], consuming_wallet := some "w", component := Component.Hopper } }

/-- Bound Exit Actor with no stream contexts. -/
def stateA : ProxyClientState :=
  { cryptde := cdeA, stream_contexts := [], exit_service_rate := 100, exit_byte_rate := 200 }

def requestA : ClientRequestPayload :=
  { stream_key := 5
    sequenced_packet := { data := [10, 11, 12], sequence_number := 0, last_data := false }
    target_hostname := some "target.hostname.com"
    target_port := 1234
    protocol := ProxyProtocol.HTTP
    originator_public_key := [9, 9] }

def expiredA : ExpiredCoresPackage ClientRequestPayload :=
  { immediate_neighbor_ip := IpAddr.v4 1 2 3 4
    consuming_wallet := some "consuming"
    remaining_route := { hops := [[1]] }
    payload := requestA
    payload_len := 3 }

def inboundA : InboundServerData :=
  { stream_key := 5, last_data := false, sequence_number := 1234
    source := "1.2.3.4:5678", data := [1, 2, 3] }

/-- Stream context with an encryptable destination key and a paying wallet. -/
def ctxB : StreamContext :=
  { return_route := { hops := [[4]] }
    payload_destination_key := [8]
    consuming_wallet := some "consuming" }

def stateB : ProxyClientState :=
  { cryptde := cdeA, stream_contexts := [(5, ctxB)]
    exit_service_rate := 100, exit_byte_rate := 200 }

/-- Stream context whose destination key is the empty (end-of-route) key, so
package construction fails; reachable, see `C10...`. -/
def ctxEmptyKey : StreamContext :=
  { return_route := { hops := [[4]] }
    payload_destination_key := []
    consuming_wallet := some "consuming" }

def stateC : ProxyClientState :=
  { cryptde := cdeA, stream_contexts := [(5, ctxEmptyKey)]
    exit_service_rate := 100, exit_byte_rate := 200 }

def inboundLast : InboundServerData :=
  { stream_key := 5, last_data := true, sequence_number := 1235
    source := "1.2.3.4:5678", data := [1, 2, 3] }

/-! ## C1 -/

/-- C1: an `ExpiredCoresPackage<ClientRequestPayload>` is accepted iff the
consuming wallet is `Some` or the payload's originator key equals the local
public key; on acceptance the payload and wallet are passed (by value) to the
pool's `process_package`, on refusal nothing reaches the pool and an error
containing the refused payload's byte length is logged. -/
theorem C1_request_policy (s : ProxyClientState)
    (msg : ExpiredCoresPackage ClientRequestPayload) :
    ((msg.consuming_wallet.isSome = true ∨
        msg.payload.originator_public_key = s.cryptde.public_key) →
      (handleExpiredCoresPackage s msg).2.pool_messages =
        [(msg.payload, msg.consuming_wallet)]) ∧
    (¬(msg.consuming_wallet.isSome = true ∨
        msg.payload.originator_public_key = s.cryptde.public_key) →
      (handleExpiredCoresPackage s msg).2.pool_messages = [] ∧
      (handleExpiredCoresPackage s msg).2.logs =
        [LogEntry.errorRefusingExit msg.payload.sequenced_packet.data.length]) := by
  constructor
  · intro h
    have hb : (msg.consuming_wallet.isSome ||
        msg.payload.originator_public_key == s.cryptde.public_key) = true := by
      simpa [Bool.or_eq_true, beq_iff_eq] using h
    simp [handleExpiredCoresPackage, hb]
  · intro h
    have hb : (msg.consuming_wallet.isSome ||
        msg.payload.originator_public_key == s.cryptde.public_key) = false := by
      simpa [Bool.or_eq_true, beq_iff_eq, not_or] using h
    simp [handleExpiredCoresPackage, hb]

/-- C1 witness: the acceptance branch at a concrete accepted request. -/
theorem C1_request_policy_witness :
    (handleExpiredCoresPackage stateA expiredA).2.pool_messages =
      [(requestA, some "consuming")] :=
  (C1_request_policy stateA expiredA).1 (Or.inl rfl)

/-! ## C5 -/

/-- C5: an `InboundServerData` whose stream key has no installed context
produces no hopper message, no accountant message, leaves the state (hence
the stream-context map) unchanged, and logs the unsolicited-response error. -/
theorem C5_unsolicited_isolation (s : ProxyClientState) (msg : InboundServerData)
    (h : mapGet s.stream_contexts msg.stream_key = none) :
    (handleInboundServerData s msg).1 = s ∧
    (handleInboundServerData s msg).2.hopper_messages = [] ∧
    (handleInboundServerData s msg).2.accountant_messages = [] ∧
    (handleInboundServerData s msg).2.logs =
      [LogEntry.errorUnsolicited msg.data.length msg.source msg.sequence_number] := by
  simp [handleInboundServerData, h]

/-- C5 witness at a concrete state with an empty context table. -/
theorem C5_unsolicited_isolation_witness :
    (handleInboundServerData stateA inboundA).1 = stateA ∧
    (handleInboundServerData stateA inboundA).2.hopper_messages = [] ∧
    (handleInboundServerData stateA inboundA).2.accountant_messages = [] ∧
    (handleInboundServerData stateA inboundA).2.logs =
      [LogEntry.errorUnsolicited 3 "1.2.3.4:5678" 1234] :=
  C5_unsolicited_isolation stateA inboundA rfl

/-! ## C2 -/

/-- C2: for an `InboundServerData` accepted for a known stream key (i.e. the
response was packaged and sent to the hopper) whose stored wallet is
`Some w`, exactly one `ReportExitServiceProvidedMessage` is sent, carrying
`w`, the inbound data length, and the configured exit rates; with a stored
wallet of `None`, zero accounting messages are sent. -/
theorem C2_accounting_parity (s : ProxyClientState) (msg : InboundServerData)
    (sc : StreamContext) (hctx : mapGet s.stream_contexts msg.stream_key = some sc) :
    (∀ w, sc.consuming_wallet = some w →
      (handleInboundServerData s msg).2.hopper_messages ≠ [] →
      (handleInboundServerData s msg).2.accountant_messages =
        [{ consuming_wallet := w, payload_size := msg.data.length,
           service_rate := s.exit_service_rate, byte_rate := s.exit_byte_rate }]) ∧
    (sc.consuming_wallet = none →
      (handleInboundServerData s msg).2.accountant_messages = []) := by
  rcases hs : sendResponseToHopper s msg sc with ⟨o, lg⟩
  constructor
  · intro w hw hne
    cases o with
    | none =>
      exact absurd (by simp [handleInboundServerData, hctx, hs]) hne
    | some icp =>
      simp [handleInboundServerData, hctx, hs, reportResponseExitToAccountant, hw]
  · intro hw
    cases o with
    | none => simp [handleInboundServerData, hctx, hs]
    | some icp =>
      simp [handleInboundServerData, hctx, hs, reportResponseExitToAccountant, hw]

/-- C2 witness: one paid chunk yields exactly one accounting message. -/
theorem C2_accounting_parity_witness :
    (handleInboundServerData stateB inboundA).2.accountant_messages =
      [{ consuming_wallet := "consuming", payload_size := 3,
         service_rate := 100, byte_rate := 200 }] :=
  (C2_accounting_parity stateB inboundA ctxB rfl).1 "consuming" rfl (by decide)

/-! ## C3 -/

/-- C3 counterexample: a `last_data` response for an installed context whose
destination key is empty fails packaging, and `handle` returns before the
removal, so the entry is still in the map afterwards — refuting the claim
that every `last_data` response handled with an installed context leaves the
map without that entry. -/
theorem C3_counterexample :
    inboundLast.last_data = true ∧
    mapGet stateC.stream_contexts inboundLast.stream_key = some ctxEmptyKey ∧
    mapGet (handleInboundServerData stateC inboundLast).1.stream_contexts
      inboundLast.stream_key = some ctxEmptyKey :=
  ⟨rfl, rfl, rfl⟩

/-- C3 (amended): if a `last_data` response is handled and the response was
successfully packaged for the hopper, the stream-context entry for its key
is removed. -/
theorem C3_last_data_removes_context (s : ProxyClientState) (msg : InboundServerData)
    (hlast : msg.last_data = true)
    (hsent : (handleInboundServerData s msg).2.hopper_messages ≠ []) :
    mapGet (handleInboundServerData s msg).1.stream_contexts msg.stream_key = none := by
  cases hctx : mapGet s.stream_contexts msg.stream_key with
  | none => exact absurd (by simp [handleInboundServerData, hctx]) hsent
  | some sc =>
    rcases hs : sendResponseToHopper s msg sc with ⟨o, lg⟩
    cases o with
    | none => exact absurd (by simp [handleInboundServerData, hctx, hs]) hsent
    | some icp =>
      rcases hr : reportResponseExitToAccountant s sc msg.data.length with ⟨acct, alg⟩
      simp [handleInboundServerData, hctx, hs, hr, hlast, mapGet_mapRemove_self]

/-- C3 witness: a successfully packaged `last_data` response removes the
concrete context. -/
theorem C3_last_data_removes_context_witness :
    mapGet (handleInboundServerData stateB inboundLast).1.stream_contexts 5 = none :=
  C3_last_data_removes_context stateB inboundLast rfl (by decide)

/-! ## C4 -/

theorem sendResponseToHopper_ok (s : ProxyClientState) (msg : InboundServerData)
    (sc : StreamContext) (icp : IncipientCoresPackage) (lg : List LogEntry)
    (h : sendResponseToHopper s msg sc = (some icp, lg)) :
    IncipientCoresPackage.new s.cryptde sc.return_route
      (MessageType.ClientResponse
        { stream_key := msg.stream_key
          sequenced_packet :=
            { data := msg.data
              sequence_number := msg.sequence_number
              last_data := msg.last_data } })
      sc.payload_destination_key = Except.ok icp := by
  unfold sendResponseToHopper at h
  cases hn : IncipientCoresPackage.new s.cryptde sc.return_route
      (MessageType.ClientResponse
        { stream_key := msg.stream_key
          sequenced_packet :=
            { data := msg.data
              sequence_number := msg.sequence_number
              last_data := msg.last_data } })
      sc.payload_destination_key with
  | ok icp0 =>
    rw [hn] at h
    simp only [Prod.mk.injEq, Option.some.injEq] at h
    rw [h.1]
  | error e =>
    rw [hn] at h
    simp at h

/-- Every hopper message emitted for a response chunk is built over the
return route stored in the context that was looked up. -/
theorem handleInbound_hopper_route (s : ProxyClientState) (msg : InboundServerData)
    (sc : StreamContext) (hctx : mapGet s.stream_contexts msg.stream_key = some sc) :
    ∀ icp ∈ (handleInboundServerData s msg).2.hopper_messages,
      icp.route = sc.return_route := by
  intro icp hmem
  rcases hs : sendResponseToHopper s msg sc with ⟨o, lg⟩
  cases o with
  | none => simp [handleInboundServerData, hctx, hs] at hmem
  | some icp0 =>
    rcases hr : reportResponseExitToAccountant s sc msg.data.length with ⟨acct, alg⟩
    have hicp : icp = icp0 := by
      simpa [handleInboundServerData, hctx, hs, hr] using hmem
    rw [hicp]
    exact IncipientCoresPackage.new_route _ _ _ _ _ (sendResponseToHopper_ok s msg sc _ _ hs)

/-- An accepted request installs exactly the latest stream context; the rest
of the actor state is untouched. -/
theorem handleExpiredCoresPackage_accepted (s : ProxyClientState)
    (msg : ExpiredCoresPackage ClientRequestPayload)
    (hacc : msg.consuming_wallet.isSome = true ∨
      msg.payload.originator_public_key = s.cryptde.public_key) :
    (handleExpiredCoresPackage s msg).1 =
      { s with stream_contexts :=
          (mapInsert s.stream_contexts msg.payload.stream_key
            { return_route := msg.remaining_route,
              payload_destination_key := msg.payload.originator_public_key,
              consuming_wallet := msg.consuming_wallet }) } := by
  have hb : (msg.consuming_wallet.isSome ||
      msg.payload.originator_public_key == s.cryptde.public_key) = true := by
    simpa [Bool.or_eq_true, beq_iff_eq] using hacc
  simp [handleExpiredCoresPackage, hb]

/-- C4: after two accepted requests for the same stream key carrying distinct
remaining routes R1 then R2, the stored context is the one installed by the
second request, and every hopper package produced for a subsequent
`InboundServerData` on that stream key is built over R2. -/
theorem C4_route_overwrite (s : ProxyClientState)
    (req1 req2 : ExpiredCoresPackage ClientRequestPayload) (msg : InboundServerData)
    (_hkey : req1.payload.stream_key = req2.payload.stream_key)
    (_hdistinct : req1.remaining_route ≠ req2.remaining_route)
    (_hacc1 : req1.consuming_wallet.isSome = true ∨
      req1.payload.originator_public_key = s.cryptde.public_key)
    (hacc2 : req2.consuming_wallet.isSome = true ∨
      req2.payload.originator_public_key = s.cryptde.public_key)
    (hmsg : msg.stream_key = req2.payload.stream_key) :
    mapGet (handleExpiredCoresPackage
        (handleExpiredCoresPackage s req1).1 req2).1.stream_contexts
        req2.payload.stream_key =
      some { return_route := req2.remaining_route,
             payload_destination_key := req2.payload.originator_public_key,
             consuming_wallet := req2.consuming_wallet } ∧
    ∀ icp ∈ (handleInboundServerData
        (handleExpiredCoresPackage (handleExpiredCoresPackage s req1).1 req2).1
        msg).2.hopper_messages,
      icp.route = req2.remaining_route := by
  have hcd : (handleExpiredCoresPackage s req1).1.cryptde = s.cryptde :=
    handleExpiredCoresPackage_cryptde s req1
  have hacc2v : req2.consuming_wallet.isSome = true ∨
      req2.payload.originator_public_key =
        (handleExpiredCoresPackage s req1).1.cryptde.public_key := by
    rw [hcd]
    exact hacc2
  have hstate := handleExpiredCoresPackage_accepted
    (handleExpiredCoresPackage s req1).1 req2 hacc2v
  have hsc : (handleExpiredCoresPackage
      (handleExpiredCoresPackage s req1).1 req2).1.stream_contexts =
      mapInsert (handleExpiredCoresPackage s req1).1.stream_contexts req2.payload.stream_key
        { return_route := req2.remaining_route,
          payload_destination_key := req2.payload.originator_public_key,
          consuming_wallet := req2.consuming_wallet } := by
    rw [hstate]
  have hget : mapGet (handleExpiredCoresPackage
      (handleExpiredCoresPackage s req1).1 req2).1.stream_contexts msg.stream_key =
      some { return_route := req2.remaining_route,
             payload_destination_key := req2.payload.originator_public_key,
             consuming_wallet := req2.consuming_wallet } := by
    rw [hmsg, hsc]
    exact mapGet_mapInsert_self _ _ _
  refine ⟨by rw [hsc]; exact mapGet_mapInsert_self _ _ _, ?_⟩
  intro icp hmem
  exact handleInbound_hopper_route _ msg _ hget icp hmem

/-- C4 witness at two concrete requests with routes `[[1]]` then `[[2]]`. -/
def expiredB : ExpiredCoresPackage ClientRequestPayload :=
  { immediate_neighbor_ip := IpAddr.v4 2 3 4 5
    consuming_wallet := some "gnimusnoc"
    remaining_route := { hops := [[2]] }
    payload := requestA
    payload_len := 3 }

theorem C4_route_overwrite_witness :
    mapGet (handleExpiredCoresPackage
        (handleExpiredCoresPackage stateA expiredA).1 expiredB).1.stream_contexts 5 =
      some { return_route := { hops := [[2]] },
             payload_destination_key := [9, 9],
             consuming_wallet := some "gnimusnoc" } ∧
    ∀ icp ∈ (handleInboundServerData
        (handleExpiredCoresPackage (handleExpiredCoresPackage stateA expiredA).1 expiredB).1
        inboundA).2.hopper_messages,
      icp.route = { hops := [[2]] } :=
  C4_route_overwrite stateA expiredA expiredB inboundA rfl (by decide)
    (Or.inl rfl) (Or.inl rfl) rfl

/-! ## C6 -/

/-- C6 (amended): on a `DnsResolveFailure` with an installed context,
provided the `DnsResolveFailed` package construction for the stored
destination key succeeds, the package (over the stored return route,
addressed to the stored destination key) is sent to the hopper; with no
installed context, only the nonexistent-stream error is logged; whenever the
handler returns (does not panic), the state — hence the context map — is
unchanged, so no context is ever removed. -/
theorem C6_dns_failure_handling (s : ProxyClientState) (msg : DnsResolveFailure) :
    (∀ sc icp, mapGet s.stream_contexts msg.stream_key = some sc →
      IncipientCoresPackage.new s.cryptde sc.return_route
        (MessageType.DnsResolveFailed msg) sc.payload_destination_key = Except.ok icp →
      handleDnsResolveFailure s msg =
        some (s, { pool_messages := [], hopper_messages := [icp],
                   accountant_messages := [], logs := [] })) ∧
    (mapGet s.stream_contexts msg.stream_key = none →
      handleDnsResolveFailure s msg =
        some (s, { pool_messages := [], hopper_messages := [],
                   accountant_messages := [],
                   logs := [LogEntry.errorDnsNonexistentStream msg.stream_key] })) ∧
    (∀ out, handleDnsResolveFailure s msg = some out → out.1 = s) := by
  refine ⟨?_, ?_, ?_⟩
  · intro sc icp hctx hicp
    simp [handleDnsResolveFailure, hctx, hicp]
  · intro hctx
    simp [handleDnsResolveFailure, hctx]
  · intro out hout
    cases hctx : mapGet s.stream_contexts msg.stream_key with
    | none =>
      simp only [handleDnsResolveFailure, hctx, Option.some.injEq] at hout
      rw [← hout]
    | some sc =>
      cases hicp : IncipientCoresPackage.new s.cryptde sc.return_route
          (MessageType.DnsResolveFailed msg) sc.payload_destination_key with
      | ok icp =>
        simp only [handleDnsResolveFailure, hctx, hicp, Option.some.injEq] at hout
        rw [← hout]
      | error e =>
        simp [handleDnsResolveFailure, hctx, hicp] at hout

/-- C6 counterexample: with an installed context whose stored destination key
is the empty key, the construction fails and the `expect` panics (`none`), so
no `IncipientCoresPackage` is sent to the hopper — refuting the unqualified
claim that an installed context always leads to a hopper send. -/
theorem C6_counterexample :
    mapGet stateC.stream_contexts 5 = some ctxEmptyKey ∧
    handleDnsResolveFailure stateC { stream_key := 5 } = none :=
  ⟨rfl, rfl⟩

/-- C6 witness: concrete known stream key with an encryptable destination. -/
theorem C6_dns_failure_handling_witness :
    handleDnsResolveFailure stateB { stream_key := 5 } =
      some (stateB,
        { pool_messages := [],
          hopper_messages := [{ route := { hops := [[4]] }, payload := [7] }],
          accountant_messages := [], logs := [] }) :=
  (C6_dns_failure_handling stateB { stream_key := 5 }).1 ctxB
    { route := { hops := [[4]] }, payload := [7] } rfl rfl

/-! ## C10 -/

/-- Request whose originator key is the empty key, accepted because the
consuming wallet is `Some`; it installs a context with an empty
`payload_destination_key`. -/
def expiredEmptyOriginator : ExpiredCoresPackage ClientRequestPayload :=
  { immediate_neighbor_ip := IpAddr.v4 1 2 3 4
    consuming_wallet := some "consuming"
    remaining_route := { hops := [[3]] }
    payload :=
      { stream_key := 7
        sequenced_packet := { data := [1], sequence_number := 0, last_data := false }
        target_hostname := none
        target_port := 0
        protocol := ProxyProtocol.HTTP
        originator_public_key := [] }
    payload_len := 1 }

/-- The reachable state: the empty-destination-key context was installed by
handling an accepted request from the bound initial state. -/
def stateD : ProxyClientState :=
  (handleExpiredCoresPackage stateA expiredEmptyOriginator).1

def inboundD : InboundServerData :=
  { stream_key := 7, last_data := false, sequence_number := 1
    source := "9.9.9.9:1", data := [2, 3] }

/-- C10: in the reachable state `stateD` a context with the empty
`payload_destination_key` is installed for key 7; handling a
`DnsResolveFailure` for that key panics (the `expect` on the failed package
construction, modelled as `none`), whereas the `InboundServerData` response
path hits the same empty-key construction failure and merely logs the error
and drops, leaving the state unchanged and sending nothing to the hopper. -/
theorem C10_dns_panic_on_empty_destination_key :
    (mapGet stateD.stream_contexts 7).map (fun sc => sc.payload_destination_key) =
      some [] ∧
    handleDnsResolveFailure stateD { stream_key := 7 } = none ∧
    (handleInboundServerData stateD inboundD).1 = stateD ∧
    (handleInboundServerData stateD inboundD).2.hopper_messages = [] ∧
    (handleInboundServerData stateD inboundD).2.logs =
      [LogEntry.errorCouldNotCreatePackage 2 "9.9.9.9:1" 1
        "Could not encrypt payload: EmptyKey"] :=
  ⟨rfl, rfl, rfl, rfl, rfl⟩

/-! ## C7 -/

/-- C7: whenever `to_expired` succeeds, the expired package's
`remaining_route` is the input route unchanged (the top hop is peeked, not
consumed), its `consuming_wallet` is the top hop's consuming wallet, and its
payload is the `decodex` of the input's encrypted payload under the local
key. -/
theorem C7_to_expired_shape (lcp : LiveCoresPackage) (ip : IpAddr) (c : CryptDE)
    (ecp : ExpiredCoresPackage MessageType)
    (h : lcp.to_expired ip c = Except.ok ecp) :
    ecp.remaining_route = lcp.route ∧
    (∃ top_hop, lcp.route.next_hop c = Except.ok top_hop ∧
      ecp.consuming_wallet = top_hop.consuming_wallet) ∧
    c.decodexMsg lcp.payload = Except.ok ecp.payload := by
  unfold LiveCoresPackage.to_expired at h
  cases hnh : lcp.route.next_hop c with
  | error e => rw [hnh] at h; cases h
  | ok top_hop =>
    rw [hnh] at h
    cases hd : c.decodexMsg lcp.payload with
    | error e => rw [hd] at h; cases h
    | ok m =>
      rw [hd] at h
      simp only [Except.map, Except.ok.injEq] at h
      refine ⟨?_, ⟨top_hop, rfl, ?_⟩, ?_⟩
      · rw [← h]
      · rw [← h]
      · rw [← h]

/-- A concrete live package for the C7 witness. -/
def lcpA : LiveCoresPackage := { route := { hops := [[1], [2]] }, payload := [5, 6] }

def ecpA : ExpiredCoresPackage MessageType :=
  { immediate_neighbor_ip := IpAddr.v4 1 2 3 4
    consuming_wallet := some "w"
    remaining_route := { hops := [[1], [2]] }
    payload := MessageType.Gossip
    payload_len := 2 }

/-- C7 witness at a concrete package and crypto identity. -/
theorem C7_to_expired_shape_witness :
    ecpA.remaining_route = lcpA.route ∧
    (∃ top_hop, lcpA.route.next_hop cdeA = Except.ok top_hop ∧
      ecpA.consuming_wallet = top_hop.consuming_wallet) ∧
    cdeA.decodexMsg lcpA.payload = Except.ok ecpA.payload :=
  C7_to_expired_shape lcpA (IpAddr.v4 1 2 3 4) cdeA ecpA rfl

/-! ## C8 -/

set_option maxRecDepth 4000

/-- C8: on the given file contents, the inspection returns exactly
`[8.8.8.8, 2603:6011:b504:bf01:2ad:24ff:fe57:fd78]` — commented nameserver
lines are ignored, active ones contribute their first address token, and
order is preserved. -/
theorem C8_resolv_conf_happy_path :
    inspect_contents "#comment\n## nameserver 1.1.1.1\nnameserver 8.8.8.8\nnameserver 2603:6011:b504:bf01:2ad:24ff:fe57:fd78\n#nameserver 127.0.0.1\n" =
      Except.ok [IpAddr.v4 8 8 8 8,
        IpAddr.v6 0x2603 0x6011 0xb504 0xbf01 0x2ad 0x24ff 0xfe57 0xfd78] := by
  rfl

/-! ## C9 -/

/-- The IP address contributed by one active nameserver line: its extracted
token, when it parses as an IP address. -/
def tokenAddr (line : String) : Option IpAddr :=
  match nameserver_line_to_ip_str line with
  | Except.ok s => ipAddrFromStr s
  | Except.error _ => none

theorem lineTriple_err_isNone (line : String) :
    (lineTriple line).2.2.isNone = (tokenAddr line).isSome := by
  unfold lineTriple tokenAddr
  cases nameserver_line_to_ip_str line with
  | ok s => cases h : ipAddrFromStr s <;> simp [h]
  | error e => simp

theorem lineTriple_addr (line : String) :
    (lineTriple line).2.1 = tokenAddr line := by
  unfold lineTriple tokenAddr
  cases nameserver_line_to_ip_str line with
  | ok s => cases h : ipAddrFromStr s <;> simp [h]
  | error e => simp

theorem successes_filterMap (l : List (String × Nat)) :
    ((l.map (fun pr => lineTriple pr.1)).filter
        (fun t => t.2.2.isNone)).filterMap (fun t => t.2.1) =
      l.filterMap (fun pr => tokenAddr pr.1) := by
  induction l with
  | nil => rfl
  | cons hd tl ih =>
    simp only [List.map_cons, List.filter_cons, List.filterMap_cons]
    cases h : tokenAddr hd.1 with
    | none =>
      have he : ((lineTriple hd.1).2.2.isNone) = false := by
        rw [lineTriple_err_isNone, h]
        rfl
      simp [he, h, ih]
    | some a =>
      have he : ((lineTriple hd.1).2.2.isNone) = true := by
        rw [lineTriple_err_isNone, h]
        rfl
      have ha := lineTriple_addr hd.1
      rw [h] at ha
      simp [he, h, ha, ih]

theorem successes_ne_nil (l : List (String × Nat)) (pr : String × Nat)
    (hmem : pr ∈ l) (hp : (tokenAddr pr.1).isSome = true) :
    (l.map (fun pr => lineTriple pr.1)).filter (fun t => t.2.2.isNone) ≠ [] := by
  intro hnil
  have hin : lineTriple pr.1 ∈
      (l.map (fun pr => lineTriple pr.1)).filter (fun t => t.2.2.isNone) :=
    List.mem_filter.mpr ⟨List.mem_map_of_mem _ hmem, by rw [lineTriple_err_isNone]; exact hp⟩
  rw [hnil] at hin
  cases hin

/-- C9: if at least one active nameserver line's token parses as an IP
address, inspection returns `Ok` with exactly the parseable addresses in
file order (unparseable tokens are silently discarded); an error is returned
only when no active nameserver line parses. -/
theorem C9_parseable_lines_partition (contents : String) :
    ((∃ pr ∈ active_nameservers contents, (tokenAddr pr.1).isSome = true) →
      inspect_contents contents =
        Except.ok ((active_nameservers contents).filterMap (fun pr => tokenAddr pr.1))) ∧
    (∀ e, inspect_contents contents = Except.error e →
      ∀ pr ∈ active_nameservers contents, tokenAddr pr.1 = none) := by
  have hok : (∃ pr ∈ active_nameservers contents, (tokenAddr pr.1).isSome = true) →
      inspect_contents contents =
        Except.ok ((active_nameservers contents).filterMap (fun pr => tokenAddr pr.1)) := by
    rintro ⟨pr, hmem, hp⟩
    obtain ⟨a, ha⟩ := Option.isSome_iff_exists.mp hp
    have hsucc := successes_ne_nil (active_nameservers contents) pr hmem hp
    have hmap := successes_filterMap (active_nameservers contents)
    have hne : (active_nameservers contents).filterMap (fun pr => tokenAddr pr.1) ≠ [] := by
      intro hnil
      have hin : a ∈ (active_nameservers contents).filterMap (fun pr => tokenAddr pr.1) :=
        List.mem_filterMap.mpr ⟨pr, hmem, ha⟩
      rw [hnil] at hin
      cases hin
    have h1 : (((active_nameservers contents).map (fun pr => lineTriple pr.1)).filter
        (fun t => t.2.2.isNone)).isEmpty = false := by
      cases hn : ((active_nameservers contents).map (fun pr => lineTriple pr.1)).filter
          (fun t => t.2.2.isNone) with
      | nil => exact absurd hn hsucc
      | cons x xs => rfl
    have h2 : ((active_nameservers contents).filterMap
        (fun pr => tokenAddr pr.1)).isEmpty = false := by
      cases hn : (active_nameservers contents).filterMap (fun pr => tokenAddr pr.1) with
      | nil => exact absurd hn hne
      | cons x xs => rfl
    simp [inspect_contents, h1, hmap, h2]
  refine ⟨hok, ?_⟩
  intro e herr pr hmem
  cases h : tokenAddr pr.1 with
  | none => rfl
  | some a =>
    have hp : (tokenAddr pr.1).isSome = true := by rw [h]; rfl
    have := hok ⟨pr, hmem, hp⟩
    rw [herr] at this
    cases this

/-- C9 witness at a concrete one-line file. -/
theorem C9_parseable_lines_partition_witness :
    inspect_contents "nameserver 1.2.3.4" =
      Except.ok ((active_nameservers "nameserver 1.2.3.4").filterMap
        (fun pr => tokenAddr pr.1)) :=
  (C9_parseable_lines_partition "nameserver 1.2.3.4").1
    ⟨("nameserver 1.2.3.4", 0), by decide, by decide⟩
